import Mathlib

/-
Verification development for the hass-adtpulse integration
(custom_components/adtpulse).  The definitions below are shallow
embeddings of the Python source files:

  * alarm_control_panel.py : ALARM_MAP, ADTPulseAlarm.status,
    ADTPulseAlarm._perform_alarm_action and the four command methods;
  * binary_sensor.py : ADT_DEVICE_CLASS_TAG_MAP,
    ADTPulseZoneSensor._determine_device_class,
    ADTPulseZoneSensor._set_icon, async_setup_entry,
    ADTPulseGatewaySensor;
  * config_flow.py : validate_input, PulseConfigFlow.async_step_user,
    PulseConfigFlow._async_entry_for_username.

Python exceptions are modelled with Except, Python dicts with
association lists (insertion order preserved, lookup raising KeyError
on a missing key), and the external pyadtpulse client with explicit
input records describing what the remote service returns.
-/

namespace AdtPulse

/-! ## String helpers

Python's `needle in haystack` substring test, embedded over `List Char`. -/

/-- Substring containment on character lists: some suffix-start position of
`hay` has `needle` as a prefix (this is exactly membership of `needle` as a
contiguous run of `hay`). -/
def charsContain (hay needle : List Char) : Bool :=
  (List.range (hay.length + 1)).any (fun i => needle.isPrefixOf (hay.drop i))

/-- Python `needle in hay` on strings (case sensitive, as in the source). -/
def strContains (hay needle : String) : Bool :=
  charsContain hay.toList needle.toList

/-- Case-insensitive substring test.  This is the SPEC's wording
("contains the substring 'window' under case-insensitive comparison"),
not anything the source computes; it exists only to compare the spec's
rule with the source's rule. -/
def strContainsCaseInsensitive (hay needle : String) : Bool :=
  charsContain (hay.toList.map Char.toLower) (needle.toList.map Char.toLower)

/-! ## StateMapper (alarm_control_panel.py)

`ALARM_MAP` is a Python dict keyed by the six `ADT_ALARM_*` vendor
constants from pyadtpulse.  Vendor codes are embedded as an inductive
with one constructor per known constant plus `other` for any code
outside the closed set.  The dict's values are the Home Assistant
`STATE_ALARM_*` strings, except that the vendor unknown code maps to
Python `None` (embedded as `Option.none`).  `ADTPulseAlarm.status`
evaluates `ALARM_MAP[self._site.status]`: a plain dict subscript, which
raises `KeyError` when the key is absent. -/

/-- Vendor alarm status codes: the six pyadtpulse `ADT_ALARM_*` constants,
plus `other` for any status string outside that closed set. -/
inductive ADTAlarmCode where
  | arming
  | away
  | disarming
  | home
  | off
  | unknown
  | other (code : String)
  deriving DecidableEq, Repr, BEq

/-- The `ALARM_MAP` dict literal from alarm_control_panel.py, as an
association list in source order.  `ADT_ALARM_UNKNOWN` maps to `None`. -/
def ALARM_MAP : List (ADTAlarmCode × Option String) :=
  [(ADTAlarmCode.arming, some "arming"),
   (ADTAlarmCode.away, some "armed_away"),
   (ADTAlarmCode.disarming, some "disarming"),
   (ADTAlarmCode.home, some "armed_home"),
   (ADTAlarmCode.off, some "disarmed"),
   (ADTAlarmCode.unknown, none)]

/-- Python dict subscript `m[k]`: the value at the first matching key, or a
`KeyError` when the key is absent. -/
def dictLookup (m : List (ADTAlarmCode × Option String)) (k : ADTAlarmCode) :
    Except String (Option String) :=
  match m.find? (fun p => p.1 == k) with
  | some p => Except.ok p.2
  | none => Except.error "KeyError"

/-- `ADTPulseAlarm.status`: evaluates `ALARM_MAP[self._site.status]`. -/
def alarm_status (code : ADTAlarmCode) : Except String (Option String) :=
  dictLookup ALARM_MAP code

/-! ## ZoneClassifier (binary_sensor.py) -/

/-- The subset of Home Assistant `BinarySensorDeviceClass` values this
integration uses. -/
inductive DeviceKind where
  | door
  | window
  | occupancy
  | motion
  | smoke
  | tamper
  | co
  | heat
  | moisture
  | garageDoor
  | connectivity
  deriving DecidableEq, Repr, BEq

/-- `ADT_DEVICE_CLASS_TAG_MAP` from binary_sensor.py, in source (dict
insertion) order.  Note the source maps the tag "motion" to
`BinarySensorDeviceClass.OCCUPANCY`, not `.MOTION`. -/
def ADT_DEVICE_CLASS_TAG_MAP : List (String × DeviceKind) :=
  [("doorWindow", DeviceKind.door),
   ("motion", DeviceKind.occupancy),
   ("smoke", DeviceKind.smoke),
   ("glass", DeviceKind.tamper),
   ("co", DeviceKind.co),
   ("fire", DeviceKind.heat),
   ("flood", DeviceKind.moisture),
   ("garage", DeviceKind.garageDoor)]

/-- Lookup of one tag in `ADT_DEVICE_CLASS_TAG_MAP` (the body of the
`try: ... except KeyError:` in the source, with the `KeyError` case as
`none`). -/
def tagMapLookup (tag : String) : Option DeviceKind :=
  (ADT_DEVICE_CLASS_TAG_MAP.find? (fun p => p.1 == tag)).map Prod.snd

/-- The `for tag in tags: try/except/break` scan of
`_determine_device_class`: the first tag IN INPUT ORDER that has a map
entry determines the device class; tags without an entry are skipped. -/
def scanTags : List String → Option DeviceKind
  | [] => none
  | t :: rest =>
    match tagMapLookup t with
    | some c => some c
    | none => scanTags rest

/-- `ADTPulseZoneData` from pyadtpulse (external), as consumed here: the
zone's id, display name, tag list and status string. -/
structure ADTPulseZoneData where
  id_ : String
  name : String
  tags : List String
  state : String
  deriving DecidableEq, Repr

/-- `ADTPulseZoneSensor._determine_device_class`.  The scan over `tags`
runs only when the "sensor" marker tag is present; when the resulting
device class is `None` a `ValueError` is raised; a resolved `DOOR` kind
is upgraded to `WINDOW` when the display name contains "Window" or
"window" (exact substrings, as in the source). -/
def determine_device_class (zone_data : ADTPulseZoneData) :
    Except String DeviceKind :=
  let tags := zone_data.tags
  let device_kind : Option DeviceKind :=
    if tags.contains "sensor" then scanTags tags else none
  match device_kind with
  | none => Except.error "Unknown ADT Pulse device class None"
  | some c =>
    if c = DeviceKind.door then
      if strContains zone_data.name "Window" || strContains zone_data.name "window" then
        Except.ok DeviceKind.window
      else
        Except.ok c
    else
      Except.ok c

/-- The SPEC's tie-break rule, for comparison only: scan the priority
TABLE in its order and return the kind of the first table entry whose
tag occurs in the zone's tag set ("first table entry wins"). -/
def tableOrderFirstMatch (tags : List String) : Option DeviceKind :=
  (ADT_DEVICE_CLASS_TAG_MAP.find? (fun p => tags.contains p.1)).map Prod.snd

/-- `ADTPulseZoneSensor._set_icon`, as a function of the device kind and
the `is_on` flag; the trailing assignment is the fall-through default for
every kind not handled by an explicit branch. -/
def set_icon (sensor_type : DeviceKind) (is_on : Bool) : String :=
  if sensor_type = DeviceKind.door then
    if is_on then "mdi:door-open" else "mdi:door"
  else if sensor_type = DeviceKind.motion then
    if is_on then "mdi:run-fast" else "mdi:motion-sensor"
  else if sensor_type = DeviceKind.smoke then
    if is_on then "mdi:fire" else "mdi:smoke-detector"
  else if sensor_type = DeviceKind.window then
    "mdi:window-closed-variant"
  else if sensor_type = DeviceKind.co then
    "mdi:molecule-co"
  else
    "mdi:window-closed-variant"

/-! ## Sensor platform setup (binary_sensor.py async_setup_entry)

`async_setup_entry` loops over `adt_service.sites`.  A site with an
empty `zones_as_dict` is logged and skipped (`continue`).  Otherwise a
list comprehension constructs one `ADTPulseZoneSensor` per zone id —
each constructor calls `_determine_device_class`, whose `ValueError`
propagates out of the comprehension and aborts the whole entry setup —
then `async_add_entities(entities)` runs, followed INSIDE THE SITE LOOP
by `async_add_entities([ADTPulseGatewaySensor(...)])`.  The embedding
returns the entities actually handed to `async_add_entities` before any
exception, together with the exception message if one was raised. -/

/-- `ADTPulseSite` as consumed here: id and `zones_as_dict` (a dict from
zone id to zone data, in insertion order). -/
structure Site where
  id : String
  zones : List (Nat × ADTPulseZoneData)
  deriving DecidableEq, Repr

/-- The `PyADTPulse` service object as consumed by sensor setup:
username and site list. -/
structure PulseService where
  username : String
  sites : List Site
  deriving DecidableEq, Repr

/-- An entity handed to `async_add_entities`. -/
inductive EntityItem where
  | zoneSensor (siteId : String) (zoneId : Nat) (kind : DeviceKind)
  | gatewaySensor (username : String)
  deriving DecidableEq, Repr, BEq

/-- The list comprehension
`[ADTPulseZoneSensor(coordinator, site, zone_id) for zone_id in site.zones_as_dict.keys()]`:
constructs zone sensors in dict order; the first `ValueError` from
`_determine_device_class` aborts the whole comprehension. -/
def siteZoneEntities (siteId : String) :
    List (Nat × ADTPulseZoneData) → Except String (List EntityItem)
  | [] => Except.ok []
  | (zoneId, zd) :: rest =>
    match determine_device_class zd with
    | Except.error e => Except.error e
    | Except.ok kind =>
      match siteZoneEntities siteId rest with
      | Except.error e => Except.error e
      | Except.ok es => Except.ok (EntityItem.zoneSensor siteId zoneId kind :: es)

/-- The site loop of `async_setup_entry`: returns the entities added so
far and the first uncaught exception, which stops the loop. -/
def setupSites (username : String) : List Site → List EntityItem × Option String
  | [] => ([], none)
  | site :: rest =>
    if site.zones.isEmpty then
      setupSites username rest
    else
      match siteZoneEntities site.id site.zones with
      | Except.error e => ([], some e)
      | Except.ok ents =>
        let tail := setupSites username rest
        (ents ++ [EntityItem.gatewaySensor username] ++ tail.1, tail.2)

/-- `async_setup_entry` of binary_sensor.py (after the service/sites
guards): the entities actually added, and the exception aborting setup
if any. -/
def setupEntry (svc : PulseService) : List EntityItem × Option String :=
  if svc.sites.isEmpty then ([], none) else setupSites svc.username svc.sites

/-- Number of gateway connectivity sensors among the added entities. -/
def countGateway (ents : List EntityItem) : Nat :=
  (ents.filter (fun e =>
    match e with
    | EntityItem.gatewaySensor _ => true
    | _ => false)).length

/-! ## Alarm commands (alarm_control_panel.py)

`_perform_alarm_action` awaits the delegated pyadtpulse coroutine; on a
`True` result it awaits `self.async_update_ha_state()` (one forced
re-render of the displayed state), on `False` it only logs a warning.
The four command methods each build the site coroutine and pass it in. -/

/-- Observable effects of `_perform_alarm_action`. -/
inductive AlarmEffect where
  | updateHaState
  | logWarning (action : String)
  deriving DecidableEq, Repr, BEq

/-- The four alarm command methods of `ADTPulseAlarm`. -/
inductive AlarmCommand where
  | disarm
  | armHome
  | armAway
  | armCustomBypass
  deriving DecidableEq, Repr

/-- The `action` string each command method passes to
`_perform_alarm_action`. -/
def commandAction : AlarmCommand → String
  | AlarmCommand.disarm => "disarm"
  | AlarmCommand.armHome => "arm home"
  | AlarmCommand.armAway => "arm away"
  | AlarmCommand.armCustomBypass => "force arm"

/-- `ADTPulseAlarm._perform_alarm_action`, as the effect trace it
produces given the boolean result of the awaited remote operation. -/
def perform_alarm_action (result : Bool) (action : String) : List AlarmEffect :=
  if result then [AlarmEffect.updateHaState] else [AlarmEffect.logWarning action]

/-- Each command method delegates its site operation's boolean result to
`_perform_alarm_action` with its action string. -/
def runCommand (cmd : AlarmCommand) (remoteResult : Bool) : List AlarmEffect :=
  perform_alarm_action remoteResult (commandAction cmd)

/-- Number of forced re-render effects in a trace. -/
def countResync (effects : List AlarmEffect) : Nat :=
  (effects.filter (fun e => e == AlarmEffect.updateHaState)).length

/-- Whether an effect changes the displayed alarm state (only the forced
re-render does; a log line does not). -/
def changesDisplayedState : AlarmEffect → Bool
  | AlarmEffect.updateHaState => true
  | AlarmEffect.logWarning _ => false

/-- Number of displayed-state changes in a trace. -/
def countDisplayChanges (effects : List AlarmEffect) : Nat :=
  (effects.filter changesDisplayedState).length

/-! ## Config flow (config_flow.py) -/

/-- What the remote service does during `validate_input`: whether
`async_login()` raises, the boolean it returns otherwise, and the
`sites` list exposed after login. -/
structure RemoteWorld where
  loginRaises : Bool
  loginResult : Bool
  siteIds : List String
  deriving DecidableEq, Repr

/-- The two validation error classes of config_flow.py. -/
inductive ValidationError where
  | cannotConnect
  | invalidAuth
  deriving DecidableEq, Repr

/-- Result of `validate_input`: the returned info dict or the raised
error, plus whether `async_logout()` was awaited (the `finally`). -/
structure ValidationOutcome where
  result : Except ValidationError (List (String × String))
  logoutPerformed : Bool
  deriving Repr

/-- `validate_input`: inside `try`, `result = await async_login()` then
`site_id = adtpulse.sites[0]` (an `IndexError` on an empty list); any
exception becomes `CannotConnect`; the `finally` always performs the
logout; only after that, a `False` login result raises `InvalidAuth`. -/
def validate_input (w : RemoteWorld) : ValidationOutcome :=
  if w.loginRaises then
    { result := Except.error ValidationError.cannotConnect, logoutPerformed := true }
  else
    match w.siteIds with
    | [] =>
      { result := Except.error ValidationError.cannotConnect, logoutPerformed := true }
    | siteId :: _ =>
      if w.loginResult then
        { result := Except.ok [("title", "ADT: Site " ++ siteId)],
          logoutPerformed := true }
      else
        { result := Except.error ValidationError.invalidAuth, logoutPerformed := true }

/-- The credential form fields of the config flow. -/
structure UserInput where
  username : String
  password : String
  fingerprint : String
  hostname : String
  deriving DecidableEq, Repr

/-- The dict a created entry persists on the non-reauth path
(`async_create_entry(..., data=user_input)`). -/
def inputToData (i : UserInput) : List (String × String) :=
  [("username", i.username), ("password", i.password),
   ("fingerprint", i.fingerprint), ("host", i.hostname)]

/-- A persisted config entry: its id and its `data` dict. -/
structure ConfigEntry where
  entryId : Nat
  data : List (String × String)
  deriving DecidableEq, Repr

/-- Python `dict.get(k)` on an association list. -/
def dataGet (d : List (String × String)) (k : String) : Option String :=
  (d.find? (fun p => p.1 == k)).map Prod.snd

/-- `PulseConfigFlow._async_entry_for_username`: the first persisted
entry whose data's "username" equals the given username. -/
def entry_for_username (entries : List ConfigEntry) (username : String) :
    Option ConfigEntry :=
  entries.find? (fun e => dataGet e.data "username" == some username)

/-- `async_update_entry(existing_entry, data=info)`: replace the data
dict of the entry with the given id. -/
def updateEntryData (entries : List ConfigEntry) (eid : Nat)
    (newData : List (String × String)) : List ConfigEntry :=
  entries.map (fun e => if e.entryId = eid then { e with data := newData } else e)

/-- The `FlowResult` returned by `async_step_user`. -/
inductive FlowResult where
  | showForm (errors : List (String × String))
  | abort (reason : String)
  | createEntry (title : String) (data : List (String × String))
  deriving DecidableEq, Repr

/-- Result of one `async_step_user` call: the flow result, the persisted
entries afterwards, and the entry ids passed to `async_reload`. -/
structure FlowOutcome where
  result : FlowResult
  entries : List ConfigEntry
  reloaded : List Nat
  deriving DecidableEq, Repr

/-- `PulseConfigFlow.async_step_user`.  With input: an existing entry
for the username aborts with "already_configured" unless `self.reauth`;
then `validate_input` runs, its exceptions becoming form errors; with no
errors, an existing entry is updated with `data=info` (the VALIDATION
info dict, not the submitted input), reloaded, and the flow aborts with
"reauth_successful"; otherwise a new entry is created with the submitted
input as data. -/
def async_step_user (entries : List ConfigEntry) (reauth : Bool)
    (w : RemoteWorld) (user_input : Option UserInput) : FlowOutcome :=
  match user_input with
  | none => { result := FlowResult.showForm [], entries := entries, reloaded := [] }
  | some input =>
    let existing := entry_for_username entries input.username
    if existing.isSome && !reauth then
      { result := FlowResult.abort "already_configured", entries := entries,
        reloaded := [] }
    else
      match (validate_input w).result with
      | Except.error ValidationError.cannotConnect =>
        { result := FlowResult.showForm [("base", "cannot_connect")],
          entries := entries, reloaded := [] }
      | Except.error ValidationError.invalidAuth =>
        { result := FlowResult.showForm [("base", "invalid_auth")],
          entries := entries, reloaded := [] }
      | Except.ok info =>
        match existing with
        | some e =>
          { result := FlowResult.abort "reauth_successful",
            entries := updateEntryData entries e.entryId info,
            reloaded := [e.entryId] }
        | none =>
          { result := FlowResult.createEntry ((dataGet info "title").getD "")
              (inputToData input),
            entries := entries, reloaded := [] }

/-! ## Concrete inputs used by the claim theorems -/

/-- A classifiable zone: tags "sensor" and "motion". -/
def zoneGoodMotion : ADTPulseZoneData :=
  { id_ := "s1", name := "Hallway Motion", tags := ["sensor", "motion"], state := "OK" }

/-- A zone with an unrecognized tag set (no "sensor", no mapped tag). -/
def zoneBadTags : ADTPulseZoneData :=
  { id_ := "s2", name := "Mystery", tags := ["myq"], state := "OK" }

/-- One site holding a classifiable zone followed by an unclassifiable one. -/
def svcOneBadZone : PulseService :=
  { username := "bob",
    sites := [{ id := "siteA", zones := [(1, zoneGoodMotion), (2, zoneBadTags)] }] }

/-- Two sites, each with one classifiable zone. -/
def svcTwoSites : PulseService :=
  { username := "bob",
    sites :=
      [{ id := "A", zones := [(1, zoneGoodMotion)] },
       { id := "B",
         zones := [(7, { id_ := "s7", name := "Front Door",
                         tags := ["sensor", "doorWindow"], state := "OK" })] }] }

/-- A persisted entry for user "bob" holding credentials. -/
def entryBob : ConfigEntry :=
  { entryId := 1,
    data := [("username", "bob"), ("password", "old"),
             ("fingerprint", "fp"), ("host", "us")] }

/-- Fresh credentials submitted for "bob" during re-authentication. -/
def reauthInput : UserInput :=
  { username := "bob", password := "newpass", fingerprint := "fp2", hostname := "us" }

/-- A healthy remote service exposing one site. -/
def reauthWorld : RemoteWorld :=
  { loginRaises := false, loginResult := true, siteIds := ["site1"] }

/-! ## Helper lemmas (shared) -/

/-- The tag scan resolves to the first tag IN INPUT ORDER that has a
table entry. -/
theorem scanTags_eq_filterHead (tags : List String) :
    scanTags tags =
      ((tags.filter (fun t => (tagMapLookup t).isSome)).head?).bind tagMapLookup := by
  induction tags with
  | nil => rfl
  | cons t rest ih =>
    cases h : tagMapLookup t with
    | some c => simp [scanTags, h, List.filter_cons]
    | none => simp [scanTags, h, List.filter_cons, ih]

/-- The tag scan succeeds exactly when some tag has a table entry. -/
theorem scanTags_isSome_eq_any (tags : List String) :
    (scanTags tags).isSome = tags.any (fun t => (tagMapLookup t).isSome) := by
  induction tags with
  | nil => rfl
  | cons t rest ih =>
    cases h : tagMapLookup t with
    | some c => simp [scanTags, h]
    | none => simp [scanTags, h, ih]

theorem countGateway_append (a b : List EntityItem) :
    countGateway (a ++ b) = countGateway a + countGateway b := by
  simp [countGateway, List.filter_append]

theorem countGateway_cons_zone (s : String) (z : Nat) (k : DeviceKind)
    (l : List EntityItem) :
    countGateway (EntityItem.zoneSensor s z k :: l) = countGateway l := by
  simp [countGateway, List.filter_cons]

/-- The zone-sensor comprehension never produces a gateway sensor. -/
theorem siteZoneEntities_no_gateway (sid : String) :
    ∀ (zs : List (Nat × ADTPulseZoneData)) (es : List EntityItem),
      siteZoneEntities sid zs = Except.ok es → countGateway es = 0 := by
  intro zs
  induction zs with
  | nil =>
    intro es h
    cases h
    rfl
  | cons z rest ih =>
    intro es h
    obtain ⟨zid, zd⟩ := z
    simp only [siteZoneEntities] at h
    cases hd : determine_device_class zd with
    | error e => rw [hd] at h; cases h
    | ok kind =>
      rw [hd] at h
      cases hr : siteZoneEntities sid rest with
      | error e => rw [hr] at h; cases h
      | ok es2 =>
        rw [hr] at h
        cases h
        rw [countGateway_cons_zone]
        exact ih es2 hr

/-- When the site loop finishes without an exception, the number of
gateway sensors added equals the number of sites with a non-empty zone
dict. -/
theorem setupSites_gateway_count (u : String) :
    ∀ (sites : List Site), (setupSites u sites).2 = none →
      countGateway (setupSites u sites).1 =
        (sites.filter (fun s => !s.zones.isEmpty)).length := by
  intro sites
  induction sites with
  | nil => intro _; rfl
  | cons site rest ih =>
    intro h
    cases hz : site.zones.isEmpty with
    | true =>
      have hss : setupSites u (site :: rest) = setupSites u rest := by
        simp [setupSites, hz]
      rw [hss] at h
      rw [hss, List.filter_cons]
      simp only [hz, Bool.not_true, Bool.false_eq_true, if_false]
      exact ih h
    | false =>
      cases he : siteZoneEntities site.id site.zones with
      | error e =>
        have hss : (setupSites u (site :: rest)).2 = some e := by
          simp [setupSites, hz, he]
        rw [hss] at h
        cases h
      | ok ents =>
        have hss : setupSites u (site :: rest) =
            (ents ++ [EntityItem.gatewaySensor u] ++ (setupSites u rest).1,
             (setupSites u rest).2) := by
          simp [setupSites, hz, he]
        rw [hss] at h ⊢
        rw [countGateway_append, countGateway_append,
          siteZoneEntities_no_gateway site.id site.zones ents he, ih h,
          List.filter_cons]
        simp [hz, countGateway]
        omega

/-! ## Claim theorems -/

/-- C1 (counterexample): for a vendor alarm code outside the six-entry
`ALARM_MAP`, `ADTPulseAlarm.status` raises `KeyError` rather than
returning the normalized unknown state — refuting the claim that any
code outside the closed set maps to unknown and never raises. -/
theorem alarm_map_unmapped_code_raises :
    alarm_status (ADTAlarmCode.other "bogus") = Except.error "KeyError" := rfl

/-- C1 (amended): each of the six vendor alarm codes in `ALARM_MAP` maps
to its documented normalized state (the vendor unknown code to `None`),
and every vendor code outside the closed set raises `KeyError`. -/
theorem alarm_map_six_codes_then_keyerror :
    alarm_status ADTAlarmCode.arming = Except.ok (some "arming") ∧
    alarm_status ADTAlarmCode.away = Except.ok (some "armed_away") ∧
    alarm_status ADTAlarmCode.disarming = Except.ok (some "disarming") ∧
    alarm_status ADTAlarmCode.home = Except.ok (some "armed_home") ∧
    alarm_status ADTAlarmCode.off = Except.ok (some "disarmed") ∧
    alarm_status ADTAlarmCode.unknown = Except.ok none ∧
    ∀ s : String, alarm_status (ADTAlarmCode.other s) = Except.error "KeyError" :=
  ⟨rfl, rfl, rfl, rfl, rfl, rfl, fun _ => rfl⟩

/-- C2 (code bug): in `svcOneBadZone`, zone 1 is classifiable while zone
2 raises a classification `ValueError`; the error propagates out of the
zone comprehension of `async_setup_entry`, so NO entity at all is added
— not even zone 1's — contradicting the per-zone failure containment the
claim states. -/
theorem classification_error_aborts_site_setup :
    determine_device_class zoneGoodMotion = Except.ok DeviceKind.occupancy ∧
    determine_device_class zoneBadTags =
      Except.error "Unknown ADT Pulse device class None" ∧
    setupEntry svcOneBadZone = ([], some "Unknown ADT Pulse device class None") :=
  ⟨rfl, rfl, rfl⟩

/-- C3 (counterexample): two zones with the same tag SET in different
orders classify differently, and neither follows the table order: with
tags `["sensor", "motion", "doorWindow"]` the table's first matching
entry is `doorWindow ↦ door`, yet the code returns `occupancy` (the
entry of the first matching INPUT tag). -/
theorem classify_input_order_not_table_order :
    determine_device_class
        { id_ := "z", name := "South Office",
          tags := ["sensor", "motion", "doorWindow"], state := "OK" } =
      Except.ok DeviceKind.occupancy ∧
    determine_device_class
        { id_ := "z", name := "South Office",
          tags := ["sensor", "doorWindow", "motion"], state := "OK" } =
      Except.ok DeviceKind.door ∧
    tableOrderFirstMatch ["sensor", "motion", "doorWindow"] = some DeviceKind.door ∧
    DeviceKind.occupancy ≠ DeviceKind.door :=
  ⟨rfl, rfl, rfl, by decide⟩

/-- C3 (amended): when the "sensor" marker is present, classification
returns the table entry of the FIRST TAG IN THE ZONE'S OWN TAG ORDER
that occurs in the table (here stated away from the door/window upgrade
special case), so the result depends on input order, not table order. -/
theorem classify_first_input_tag_wins
    (z : ADTPulseZoneData) (c : DeviceKind)
    (h1 : z.tags.contains "sensor" = true)
    (h2 : ((z.tags.filter (fun t => (tagMapLookup t).isSome)).head?).bind
            tagMapLookup = some c)
    (h3 : c ≠ DeviceKind.door) :
    determine_device_class z = Except.ok c := by
  have hscan : scanTags z.tags = some c := by
    rw [scanTags_eq_filterHead]
    exact h2
  simp only [determine_device_class, h1, if_true, hscan]
  rw [if_neg h3]

/-- C3 (witness): the amended theorem applied at a concrete zone whose
first mapped input tag is "motion". -/
theorem classify_first_input_tag_wins_witness :
    determine_device_class
        { id_ := "z", name := "Hallway",
          tags := ["sensor", "motion", "doorWindow"], state := "OK" } =
      Except.ok DeviceKind.occupancy :=
  classify_first_input_tag_wins
    { id_ := "z", name := "Hallway",
      tags := ["sensor", "motion", "doorWindow"], state := "OK" }
    DeviceKind.occupancy (by decide) (by decide) (by decide)

/-- C4 (counterexample): the name "BAY WINDOW" contains "window"
case-insensitively, yet the zone classifies to `door`, because the
source only tests the exact substrings "Window" and "window" — refuting
the claim's any-capitalization upgrade. -/
theorem door_upgrade_not_case_insensitive :
    strContainsCaseInsensitive "BAY WINDOW" "window" = true ∧
    determine_device_class
        { id_ := "z", name := "BAY WINDOW",
          tags := ["sensor", "doorWindow"], state := "OK" } =
      Except.ok DeviceKind.door ∧
    DeviceKind.door ≠ DeviceKind.window :=
  ⟨rfl, rfl, by decide⟩

/-- C4 (amended): for a zone that scans to the door kind, the result is
`window` exactly when the display name contains "Window" or "window" as
exact substrings, and stays `door` otherwise (other capitalizations such
as "WINDOW" do not trigger the upgrade). -/
theorem door_upgrade_exact_substrings
    (z : ADTPulseZoneData)
    (h1 : z.tags.contains "sensor" = true)
    (h2 : scanTags z.tags = some DeviceKind.door) :
    determine_device_class z =
      Except.ok
        (if strContains z.name "Window" || strContains z.name "window" then
          DeviceKind.window
        else DeviceKind.door) := by
  simp only [determine_device_class, h1, if_true, h2]
  cases hw : strContains z.name "Window" || strContains z.name "window" with
  | true => simp [hw]
  | false => simp [hw]

/-- C4 (witness): the amended theorem applied at the spec's own example
zone "Living Room Window", where the upgrade fires. -/
theorem door_upgrade_exact_substrings_witness :
    determine_device_class
        { id_ := "z", name := "Living Room Window",
          tags := ["sensor", "doorWindow"], state := "OK" } =
      Except.ok
        (if strContains "Living Room Window" "Window" ||
            strContains "Living Room Window" "window" then
          DeviceKind.window
        else DeviceKind.door) :=
  door_upgrade_exact_substrings
    { id_ := "z", name := "Living Room Window",
      tags := ["sensor", "doorWindow"], state := "OK" }
    (by decide) (by decide)

/-- C5 (counterexample): a zone tagged only `["sensor"]` has the marker
tag present, yet classification raises instead of returning a generic
category — refuting "raises if and only if the sensor marker is
absent". -/
theorem sensor_only_tags_raise :
    (["sensor"] : List String).contains "sensor" = true ∧
    determine_device_class
        { id_ := "z", name := "Utility", tags := ["sensor"], state := "OK" } =
      Except.error "Unknown ADT Pulse device class None" :=
  ⟨rfl, rfl⟩

/-- C5 (amended): classification succeeds exactly when the tag set
contains the "sensor" marker AND at least one tag with a table entry; in
every other case — including "sensor" present with no table tag — it
raises, and no generic fallback exists. -/
theorem classify_ok_iff_sensor_and_table_tag (z : ADTPulseZoneData) :
    ( determine_device_class z).isOk =
      (z.tags.contains "sensor" && z.tags.any (fun t => (tagMapLookup t).isSome)) := by
  cases h1 : z.tags.contains "sensor" with
  | false =>
    simp only [determine_device_class, h1, Bool.false_eq_true, if_false,
      Bool.false_and]
    rfl
  | true =>
    rw [← scanTags_isSome_eq_any]
    simp only [determine_device_class, h1, if_true, Bool.true_and]
    cases h2 : scanTags z.tags with
    | none => rfl
    | some c =>
      cases hc : decide (c = DeviceKind.door) with
      | false =>
        have hc' : ¬ c = DeviceKind.door := of_decide_eq_false hc
        simp [hc', Except.isOk, Except.toBool]
      | true =>
        have hc' : c = DeviceKind.door := of_decide_eq_true hc
        subst hc'
        cases hw : strContains z.name "Window" || strContains z.name "window" with
        | true => simp [hw, Except.isOk, Except.toBool]
        | false => simp [hw, Except.isOk, Except.toBool]

/-- C6 (confirmed): for each of the four alarm commands, a `True` result
from the delegated remote operation produces exactly one forced
re-render of the displayed state, and a `False` result produces zero
displayed-state changes (only a warning log). -/
theorem alarm_command_resync_counts (cmd : AlarmCommand) (r : Bool) :
    countResync (runCommand cmd r) = (if r then 1 else 0) ∧
    countDisplayChanges (runCommand cmd r) = (if r then 1 else 0) := by
  cases r with
  | true => exact ⟨rfl, rfl⟩
  | false => exact ⟨rfl, rfl⟩

/-- C7 (counterexample): a service exposing two sites, each with a
classifiable zone, gets TWO gateway connectivity sensors from
`async_setup_entry` (one inside each iteration of the site loop) —
refuting "exactly one per connected service regardless of how many
sites". -/
theorem gateway_sensor_per_zoned_site :
    (setupEntry svcTwoSites).2 = none ∧
    countGateway (setupEntry svcTwoSites).1 = 2 :=
  ⟨rfl, rfl⟩

/-- C7 (amended): when sensor setup finishes without an exception, the
number of gateway connectivity sensors created equals the number of
sites with a non-empty zone dict — one per zone-bearing site, not one
per connected service. -/
theorem gateway_count_eq_zoned_sites (svc : PulseService)
    (h : (setupEntry svc).2 = none) :
    countGateway (setupEntry svc).1 =
      (svc.sites.filter (fun s => !s.zones.isEmpty)).length := by
  cases hs : svc.sites.isEmpty with
  | true =>
    have he : svc.sites = [] := List.isEmpty_iff.mp hs
    simp [setupEntry, hs, he, countGateway]
  | false =>
    have hrw : setupEntry svc = setupSites svc.username svc.sites := by
      simp [setupEntry, hs]
    rw [hrw] at h
    rw [hrw]
    exact setupSites_gateway_count svc.username svc.sites h

/-- C7 (witness): the amended theorem applied to the two-site service,
where two zone-bearing sites yield two gateway sensors. -/
theorem gateway_count_eq_zoned_sites_witness :
    countGateway (setupEntry svcTwoSites).1 =
      (svcTwoSites.sites.filter (fun s => !s.zones.isEmpty)).length :=
  gateway_count_eq_zoned_sites svcTwoSites rfl

/-- C8 (code bug): outside re-authentication, re-submitting an existing
username aborts with "already_configured" (first conjunct, as the claim
states); but in a re-authentication flow the existing entry is updated
with `data=info` — the validation result `[("title", ...)]` — so the
submitted credentials are DISCARDED (no "username" key remains), not
stored, before the reload. -/
theorem reauth_update_stores_title_not_credentials :
    (async_step_user [entryBob] false reauthWorld (some reauthInput)).result =
      FlowResult.abort "already_configured" ∧
    async_step_user [entryBob] true reauthWorld (some reauthInput) =
      { result := FlowResult.abort "reauth_successful",
        entries := [{ entryId := 1, data := [("title", "ADT: Site site1")] }],
        reloaded := [1] } ∧
    dataGet [("title", "ADT: Site site1")] "username" = none ∧
    ([("title", "ADT: Site site1")] : List (String × String)) ≠
      inputToData reauthInput :=
  ⟨rfl, rfl, rfl, by decide⟩

/-- C9 (counterexample): `occupancy` — the device kind classification
assigns to motion-tagged zones — is neither `window` nor `co`, yet its
icon is the same fall-through icon whether the sensor is on or off,
refuting "distinct active and inactive variants for every category
except window and carbon monoxide". -/
theorem occupancy_icon_ignores_activity :
    determine_device_class
        { id_ := "z", name := "South Office Motion",
          tags := ["sensor", "motion"], state := "OK" } =
      Except.ok DeviceKind.occupancy ∧
    set_icon DeviceKind.occupancy true = set_icon DeviceKind.occupancy false ∧
    DeviceKind.occupancy ≠ DeviceKind.window ∧
    DeviceKind.occupancy ≠ DeviceKind.co :=
  ⟨rfl, rfl, by decide, by decide⟩

/-- C9 (amended): the icon differs between the active and inactive
states exactly for the `door`, `motion` and `smoke` kinds; `window` and
`co` have their own fixed icons, and every other kind (including
`occupancy`, the kind motion-tagged zones actually get, plus `tamper`,
`heat`, `moisture`, `garageDoor`) falls through to one fixed default
icon regardless of activity. -/
theorem icon_distinct_iff_door_motion_smoke (c : DeviceKind) :
    (set_icon c true ≠ set_icon c false) ↔
      (c = DeviceKind.door ∨ c = DeviceKind.motion ∨ c = DeviceKind.smoke) := by
  cases c <;> decide

/-- C10 (confirmed): when login succeeds (no exception, `True` result)
but the remote service exposes an empty site list, reading `sites[0]`
raises inside the guarded block and `validate_input` fails with
`CannotConnect` — not `InvalidAuth` — and the logout in `finally` is
still performed. -/
theorem empty_sites_cannot_connect_with_logout (w : RemoteWorld)
    (h1 : w.loginRaises = false) (h2 : w.loginResult = true)
    (h3 : w.siteIds = []) :
    validate_input w =
      { result := Except.error ValidationError.cannotConnect,
        logoutPerformed := true } := by
  simp [validate_input, h1, h3]

/-- C10 (witness): the theorem applied at the concrete world with a
successful login and no sites. -/
theorem empty_sites_cannot_connect_with_logout_witness :
    validate_input { loginRaises := false, loginResult := true, siteIds := [] } =
      { result := Except.error ValidationError.cannotConnect,
        logoutPerformed := true } :=
  empty_sites_cannot_connect_with_logout
    { loginRaises := false, loginResult := true, siteIds := [] } rfl rfl rfl

end AdtPulse
